import Mathlib

/-!
Verification development for the algorythm-c noise server
(`src/web_server.cpp`, `src/noise.c`).

The C sources are shallowly embedded below:
* machine integers (`unsigned int`, `ma_uint32`) are `Nat` with explicit
  `% 2 ^ 32` where overflow matters;
* `float` values are modelled as `ℚ`.  In `frand_signed` every floating
  operation before the final multiplication by the amplitude is exact in
  IEEE single precision (the masked value fits in 24 bits, the division is
  by a power of two, and the subtraction `v * 2 - 1` has an exactly
  representable result), so the rational model agrees bit-for-bit with the
  float code there;
* the global mutable state of `web_server.cpp` becomes an explicit
  `ServerState` record, and each handler / helper becomes a state
  transformer;
* calls into miniaudio (`ma_context_init`, `ma_context_get_devices`,
  `ma_device_init`, `ma_device_start`) are nondeterministic externals; their
  outcomes are supplied by a `StartEnv` record, and the device-handle
  lifecycle events they produce are logged as `DevEvent`s so that
  handle-liveness can be stated.
-/

/-- `struct NoiseState` from `web_server.cpp` (amplitude, channels, seed). -/
structure NoiseState where
  amplitude : ℚ
  channels : Nat
  seed : Nat
  deriving Repr, DecidableEq

/-- The LCG seed update of `frand_signed`:
`*s = (*s * 1664525u) + 1013904223u` on a 32-bit unsigned. -/
def lcg_next (s : Nat) : Nat :=
  (s * 1664525 + 1013904223) % 2 ^ 32

/-- `frand_signed` from `web_server.cpp` / `noise.c`: advance the seed,
take the LOW 24 bits (`*s & 0x00FFFFFF`), map to `[0,1)` by dividing by
`0x01000000`, rescale to `[-1,1)`.  Returns (new seed, sample). -/
def frand_signed (s : Nat) : Nat × ℚ :=
  (lcg_next s, ((lcg_next s % 2 ^ 24 : Nat) : ℚ) / 2 ^ 24 * 2 - 1)

/-- Modelled from the spec (§4.2), for comparison with the code: the spec
says the sample magnitude is derived from the TOP 24 bits of the updated
32-bit seed (`seed' / 2^8`), mapped to `[0,1)` and rescaled. -/
def frand_spec_top24 (s : Nat) : Nat × ℚ :=
  (lcg_next s, ((lcg_next s / 2 ^ 8 : Nat) : ℚ) / 2 ^ 24 * 2 - 1)

/-- The seed after `n` applications of the LCG step. -/
def nth_seed (s : Nat) : Nat → Nat
  | 0 => s
  | n + 1 => nth_seed (lcg_next s) n

/-- The `n`-th sample written by the data callback (0-based), as a function
of the starting seed and the amplitude: `frand_signed(&seed) * amplitude`. -/
def sample_stream (seed : Nat) (amp : ℚ) (n : Nat) : ℚ :=
  (frand_signed (nth_seed seed n)).2 * amp

/-- `n` consecutive samples of `data_callback`'s inner loop:
each iteration runs `frand_signed(&st->seed) * st->amplitude`.
Returns (samples, final seed). -/
def gen_samples (amp : ℚ) : Nat → Nat → List ℚ × Nat
  | seed, 0 => ([], seed)
  | seed, n + 1 =>
    let p := frand_signed seed
    let rest := gen_samples amp p.1 n
    (p.2 * amp :: rest.1, rest.2)

/-- One invocation of `data_callback` with `frameCount` frames: writes
`frameCount * channels` samples, advancing the shared seed once per
sample. -/
def data_callback (st : NoiseState) (frameCount : Nat) : List ℚ × NoiseState :=
  let r := gen_samples st.amplitude st.seed (frameCount * st.channels)
  (r.1, { st with seed := r.2 })

/-- The concatenated output of a sequence of callback invocations with the
given frame counts. -/
def run_callbacks (st : NoiseState) : List Nat → List ℚ
  | [] => []
  | fc :: rest =>
    let r := data_callback st fc
    r.1 ++ run_callbacks r.2 rest

-- Quick sanity examples for the generator model.
example : lcg_next 0 = 1013904223 := by decide
example : (frand_signed 0).1 = 1013904223 := by decide

/-- The global mutable state of `web_server.cpp`:
`g_ctx_inited`, `g_selectedPlaybackIndex`, `g_noiseRunning`,
`g_noiseDeviceInited`, `g_hasDeadline`, `g_noiseStopAt`, `g_noiseState`.
`boundEndpoint` records which endpoint the live device was bound to
(`config.playback.pDeviceID`): `some i` for endpoint ordinal `i`,
`none` for the subsystem default; it is `none` whenever no device is
initialized.  Time is modelled as `Nat` milliseconds. -/
structure ServerState where
  ctxInited : Bool
  selectedPlaybackIndex : Int
  noiseRunning : Bool
  noiseDeviceInited : Bool
  hasDeadline : Bool
  noiseStopAt : Nat
  noiseState : NoiseState
  boundEndpoint : Option Nat
  deriving Repr, DecidableEq

/-- Process start: all globals zero-initialized, selected index `-1`. -/
def initialState : ServerState where
  ctxInited := false
  selectedPlaybackIndex := -1
  noiseRunning := false
  noiseDeviceInited := false
  hasDeadline := false
  noiseStopAt := 0
  noiseState := { amplitude := 0, channels := 0, seed := 0 }
  boundEndpoint := none

/-- Outcomes of the miniaudio calls made during one `start_noise` call,
plus the current clock reading: whether `ma_context_init` would succeed
(used only if the context is not yet initialized), whether
`ma_context_get_devices` succeeds and how many playback endpoints it
reports, whether `ma_device_init` / `ma_device_start` succeed, and
`std::chrono::steady_clock::now()`. -/
structure StartEnv where
  ctxOk : Bool
  enumOk : Bool
  playbackCount : Nat
  initOk : Bool
  devStartOk : Bool
  now : Nat
  deriving Repr, DecidableEq

/-- Device-handle lifecycle events emitted by the miniaudio calls:
`devInit` creates a live handle, `devUninit` releases it, `devStop` and
`devStart` do not change handle liveness. -/
inductive DevEvent where
  | devStop
  | devUninit
  | devInit
  | devStart
  deriving Repr, DecidableEq

/-- `start_noise(rate, channels, amp, duration_ms)` from `web_server.cpp`.
Returns (new state, boolean result, device events in program order).
Mirrors the source: ensure the audio context (fail ⇒ return false); if
running, stop the device; if initialized, uninit it; compute the endpoint
binding from the stored ordinal against a fresh enumeration (bounds check
at use time); reset `g_noiseState` with the fixed seed `1234567`; then
`ma_device_init` (fail ⇒ false), `ma_device_start` (fail ⇒ uninit,
false); on success set running, `g_hasDeadline = duration_ms > 0` and,
when a deadline is armed, `g_noiseStopAt = now + duration_ms`.
A failure path leaves `hasDeadline` untouched, exactly as the source
does. -/
def start_noise (env : StartEnv) (rate channels : Nat) (amp : ℚ)
    (duration_ms : Nat) (s : ServerState) : ServerState × Bool × List DevEvent :=
  if s.ctxInited || env.ctxOk then
    let tearEvs : List DevEvent :=
      (if s.noiseRunning then [DevEvent.devStop] else []) ++
      (if s.noiseDeviceInited then [DevEvent.devUninit] else [])
    let bound : Option Nat :=
      if env.enumOk ∧ 0 ≤ s.selectedPlaybackIndex ∧
          s.selectedPlaybackIndex < (env.playbackCount : Int)
      then some s.selectedPlaybackIndex.toNat else none
    let s1 : ServerState :=
      { s with ctxInited := true, noiseRunning := false,
               noiseDeviceInited := false, boundEndpoint := none,
               noiseState := { amplitude := amp, channels := channels,
                               seed := 1234567 } }
    if env.initOk then
      if env.devStartOk then
        ({ s1 with noiseDeviceInited := true, boundEndpoint := bound,
                   noiseRunning := true,
                   hasDeadline := decide (0 < duration_ms),
                   noiseStopAt := if 0 < duration_ms then env.now + duration_ms
                                  else s1.noiseStopAt },
         true, tearEvs ++ [DevEvent.devInit, DevEvent.devStart])
      else
        (s1, false, tearEvs ++ [DevEvent.devInit, DevEvent.devUninit])
    else
      (s1, false, tearEvs)
  else
    (s, false, [])

/-- `stop_noise()` from `web_server.cpp`: stop the device if running,
uninit it if initialized, clear `g_hasDeadline` unconditionally. -/
def stop_noise (s : ServerState) : ServerState × List DevEvent :=
  ({ s with noiseRunning := false, noiseDeviceInited := false,
            boundEndpoint := none, hasDeadline := false },
   (if s.noiseRunning then [DevEvent.devStop] else []) ++
   (if s.noiseDeviceInited then [DevEvent.devUninit] else []))

/-- One iteration of the deadline-monitor loop body (under the lock):
if running with an armed deadline that has elapsed, stop the device,
uninit it if initialized, and clear the deadline; otherwise no change. -/
def monitor_tick (now : Nat) (s : ServerState) : ServerState × List DevEvent :=
  if s.noiseRunning ∧ s.hasDeadline ∧ s.noiseStopAt ≤ now then
    ({ s with noiseRunning := false, noiseDeviceInited := false,
              boundEndpoint := none, hasDeadline := false },
     DevEvent.devStop ::
       (if s.noiseDeviceInited then [DevEvent.devUninit] else []))
  else
    (s, [])

/-- The `POST /audio/select` handler: stores the parsed index into
`g_selectedPlaybackIndex` with no validation whatsoever. -/
def select_endpoint (idx : Int) (s : ServerState) : ServerState :=
  { s with selectedPlaybackIndex := idx }

/-- One serialized operation on the shared state: every mutation of the
globals happens under `g_audioMutex`, so any concurrent interleaving of
control requests and monitor iterations is some sequence of these. -/
inductive Op where
  | start (env : StartEnv) (rate channels : Nat) (amp : ℚ) (duration_ms : Nat)
  | stop
  | monitor (now : Nat)
  | select (idx : Int)

/-- Run one operation, collecting device events. -/
def run_op : Op → ServerState → ServerState × List DevEvent
  | Op.start env r c a d, s =>
    let res := start_noise env r c a d s
    (res.1, res.2.2)
  | Op.stop, s => stop_noise s
  | Op.monitor now, s => monitor_tick now s
  | Op.select idx, s => (select_endpoint idx s, [])

/-- Run a sequence of operations from a state, concatenating events. -/
def run_trace : List Op → ServerState → ServerState × List DevEvent
  | [], s => (s, [])
  | op :: rest, s =>
    let r := run_op op s
    let r' := run_trace rest r.1
    (r'.1, r.2 ++ r'.2)

/-- Change in the number of live device handles caused by one event. -/
def live_delta : DevEvent → Int
  | DevEvent.devInit => 1
  | DevEvent.devUninit => -1
  | _ => 0

/-- Running counts of live device handles after each event, starting
from `n` live handles. -/
def live_counts (n : Int) : List DevEvent → List Int
  | [] => []
  | e :: rest => (n + live_delta e) :: live_counts (n + live_delta e) rest

/-- Number of live device handles encoded in a (rest) state. -/
def liveOf (s : ServerState) : Int :=
  if s.noiseDeviceInited then 1 else 0

/-- States reachable from process start by any serialized interleaving of
start / stop / monitor / select operations. -/
inductive Reachable : ServerState → Prop where
  | init : Reachable initialState
  | step (op : Op) (s : ServerState) : Reachable s → Reachable (run_op op s).1

-- Sanity: a successful start from the initial state.
example :
    (start_noise ⟨true, true, 0, true, true, 0⟩ 48000 2 0 3000 initialState).2.1
      = true := by decide
example :
    (start_noise ⟨true, true, 0, false, true, 0⟩ 48000 2 0 3000 initialState).2.1
      = false := by decide

/-- The numeric fields of the JSON body of `POST /audio/whitenoise`,
after parsing: `none` models a missing or non-numeric field. -/
structure WhitenoiseReq where
  rate : Option Nat
  channels : Option Nat
  duration_ms : Option Nat
  amp : Option ℚ
  deriving Repr, DecidableEq

/-- Parameter processing of the `POST /audio/whitenoise` handler:
defaults `rate = 48000`, `channels = 2`, `duration_ms = 3000`,
`amp = 0.2`; then the clamps
`channels == 0 || channels > 8 ⇒ 2`, `rate < 8000 ⇒ 8000`,
`amp < 0 ⇒ 0`, `amp > 1 ⇒ 1`, `duration_ms < 100 ⇒ 100`.
Returns `(rate, channels, amp, duration_ms)` as passed to
`start_noise`. -/
def whitenoise_params (req : WhitenoiseReq) : Nat × Nat × ℚ × Nat :=
  let rate := req.rate.getD 48000
  let channels := req.channels.getD 2
  let duration_ms := req.duration_ms.getD 3000
  let amp := req.amp.getD (1 / 5)
  let channels := if channels = 0 ∨ channels > 8 then 2 else channels
  let rate := if rate < 8000 then 8000 else rate
  let amp := if amp < 0 then 0 else amp
  let amp := if amp > 1 then 1 else amp
  let duration_ms := if duration_ms < 100 then 100 else duration_ms
  (rate, channels, amp, duration_ms)

/-- The whole `POST /audio/whitenoise` handler: clamp the request and
call `start_noise` with the effective parameters. -/
def whitenoise_handler (req : WhitenoiseReq) (env : StartEnv)
    (s : ServerState) : ServerState × Bool × List DevEvent :=
  let p := whitenoise_params req
  start_noise env p.1 p.2.1 p.2.2.1 p.2.2.2 s

/-- The clamping block of `main` in `noise.c` (lines 67-71):
`channels == 0 || channels > 8 ⇒ 2`, `sampleRate < 8000 ⇒ 8000`,
`amplitude < 0 ⇒ 0`, `amplitude > 1 ⇒ 1`, `durationSec <= 0 ⇒ 1`. -/
def noise_cli_clamp (sampleRate channels : Nat) (amplitude : ℚ)
    (durationSec : Int) : Nat × Nat × ℚ × Int :=
  let channels := if channels = 0 ∨ channels > 8 then 2 else channels
  let sampleRate := if sampleRate < 8000 then 8000 else sampleRate
  let amplitude := if amplitude < 0 then 0 else amplitude
  let amplitude := if amplitude > 1 then 1 else amplitude
  let durationSec := if durationSec ≤ 0 then 1 else durationSec
  (sampleRate, channels, amplitude, durationSec)

/-- A `StartEnv` in which every miniaudio call succeeds. -/
def goodEnv : StartEnv :=
  { ctxOk := true, enumOk := true, playbackCount := 0,
    initOk := true, devStartOk := true, now := 0 }

/-- A `StartEnv` in which `ma_device_init` fails. -/
def initFailEnv : StartEnv :=
  { ctxOk := true, enumOk := true, playbackCount := 0,
    initOk := false, devStartOk := true, now := 0 }

/-- The state after a successful timed start (deadline armed) followed by
a start whose `ma_device_init` fails: the session is Idle, the device is
released, but the stale deadline flag is still set. -/
def staleDeadlineState : ServerState :=
  (run_trace [Op.start goodEnv 48000 2 0 500,
              Op.start initFailEnv 48000 2 0 500] initialState).1

example : staleDeadlineState.noiseRunning = false := by decide
example : staleDeadlineState.hasDeadline = true := by decide

/-- A concrete reachable Active state: one successful timed start from
the initial state. -/
def runningState : ServerState :=
  (run_op (Op.start goodEnv 48000 2 0 500) initialState).1

/-! ### Helper lemmas -/

/-- Rescaling a 24-bit fraction to `[-1,1)` and multiplying by a positive
amplitude lands in `[-amp, amp)`. -/
lemma scaled_range (m : Nat) (hm : m < 2 ^ 24) (amp : ℚ) (hamp : 0 < amp) :
    -amp ≤ ((m : ℚ) / 2 ^ 24 * 2 - 1) * amp ∧
    ((m : ℚ) / 2 ^ 24 * 2 - 1) * amp < amp := by
  have hx0 : (0 : ℚ) ≤ (m : ℚ) / 2 ^ 24 := by positivity
  have hx1 : (m : ℚ) / 2 ^ 24 < 1 := by
    rw [div_lt_one (by norm_num)]
    exact_mod_cast hm
  constructor
  · nlinarith
  · nlinarith

/-- `start_noise` succeeds exactly when the context is (or becomes)
initialized and both `ma_device_init` and `ma_device_start` succeed. -/
lemma start_noise_success_iff (env : StartEnv) (r c : Nat) (a : ℚ) (d : Nat)
    (s : ServerState) :
    (start_noise env r c a d s).2.1 = true ↔
      ((s.ctxInited || env.ctxOk) = true ∧ env.initOk = true ∧
        env.devStartOk = true) := by
  by_cases h1 : (s.ctxInited || env.ctxOk) = true <;>
    by_cases h2 : env.initOk = true <;>
    by_cases h3 : env.devStartOk = true <;>
    simp [start_noise, h1, h2, h3]

/-- The exact result of a successful `start_noise`. -/
lemma start_noise_success_eq (env : StartEnv) (r c : Nat) (a : ℚ) (d : Nat)
    (s : ServerState) (h1 : (s.ctxInited || env.ctxOk) = true)
    (h2 : env.initOk = true) (h3 : env.devStartOk = true) :
    start_noise env r c a d s =
      ({ s with ctxInited := true, noiseRunning := true,
                noiseDeviceInited := true,
                boundEndpoint :=
                  if env.enumOk ∧ 0 ≤ s.selectedPlaybackIndex ∧
                      s.selectedPlaybackIndex < (env.playbackCount : Int)
                  then some s.selectedPlaybackIndex.toNat else none,
                hasDeadline := decide (0 < d),
                noiseStopAt := if 0 < d then env.now + d else s.noiseStopAt,
                noiseState := ⟨a, c, 1234567⟩ },
       true,
       (if s.noiseRunning then [DevEvent.devStop] else []) ++
       (if s.noiseDeviceInited then [DevEvent.devUninit] else []) ++
       [DevEvent.devInit, DevEvent.devStart]) := by
  simp [start_noise, h1, h2, h3]

/-- The exact result of `start_noise` when the audio context cannot be
initialized: the state is returned unchanged. -/
lemma start_noise_ctxfail_eq (env : StartEnv) (r c : Nat) (a : ℚ) (d : Nat)
    (s : ServerState) (h1 : (s.ctxInited || env.ctxOk) = false) :
    start_noise env r c a d s = (s, false, []) := by
  simp [start_noise, h1]

/-- The exact result of `start_noise` when `ma_device_init` fails. -/
lemma start_noise_initfail_eq (env : StartEnv) (r c : Nat) (a : ℚ) (d : Nat)
    (s : ServerState) (h1 : (s.ctxInited || env.ctxOk) = true)
    (h2 : env.initOk = false) :
    start_noise env r c a d s =
      ({ s with ctxInited := true, noiseRunning := false,
                noiseDeviceInited := false, boundEndpoint := none,
                noiseState := ⟨a, c, 1234567⟩ },
       false,
       (if s.noiseRunning then [DevEvent.devStop] else []) ++
       (if s.noiseDeviceInited then [DevEvent.devUninit] else [])) := by
  simp [start_noise, h1, h2]

/-- The exact result of `start_noise` when `ma_device_init` succeeds but
`ma_device_start` fails: the fresh device is uninitialized again. -/
lemma start_noise_startfail_eq (env : StartEnv) (r c : Nat) (a : ℚ) (d : Nat)
    (s : ServerState) (h1 : (s.ctxInited || env.ctxOk) = true)
    (h2 : env.initOk = true) (h3 : env.devStartOk = false) :
    start_noise env r c a d s =
      ({ s with ctxInited := true, noiseRunning := false,
                noiseDeviceInited := false, boundEndpoint := none,
                noiseState := ⟨a, c, 1234567⟩ },
       false,
       (if s.noiseRunning then [DevEvent.devStop] else []) ++
       (if s.noiseDeviceInited then [DevEvent.devUninit] else []) ++
       [DevEvent.devInit, DevEvent.devUninit]) := by
  simp [start_noise, h1, h2, h3]

/-- Sum of the live-handle deltas of a list of events. -/
def evsum (evs : List DevEvent) : Int :=
  (evs.map live_delta).sum

lemma live_counts_append (n : Int) (xs ys : List DevEvent) :
    live_counts n (xs ++ ys) =
      live_counts n xs ++ live_counts (n + evsum xs) ys := by
  induction xs generalizing n with
  | nil => simp [live_counts, evsum]
  | cons e rest ih => simp [live_counts, evsum, ih, add_assoc]

/-- Per-operation live-handle accounting: starting from the number of
live handles encoded in the state, every intermediate count stays `≤ 1`
and the final count matches the resulting state. -/
lemma op_live (op : Op) (s : ServerState) :
    (∀ n ∈ live_counts (liveOf s) (run_op op s).2, n ≤ 1) ∧
    liveOf s + evsum (run_op op s).2 = liveOf (run_op op s).1 := by
  cases op with
  | start env r c a d =>
    by_cases h1 : (s.ctxInited || env.ctxOk) = true
    · by_cases h2 : env.initOk = true
      · by_cases h3 : env.devStartOk = true
        · simp only [run_op, start_noise_success_eq env r c a d s h1 h2 h3]
          cases hr : s.noiseRunning <;> cases hd : s.noiseDeviceInited <;>
            simp [liveOf, evsum, live_counts, live_delta, hr, hd]
        · simp only [run_op,
            start_noise_startfail_eq env r c a d s h1 h2 (by simpa using h3)]
          cases hr : s.noiseRunning <;> cases hd : s.noiseDeviceInited <;>
            simp [liveOf, evsum, live_counts, live_delta, hr, hd]
      · simp only [run_op,
          start_noise_initfail_eq env r c a d s h1 (by simpa using h2)]
        cases hr : s.noiseRunning <;> cases hd : s.noiseDeviceInited <;>
          simp [liveOf, evsum, live_counts, live_delta, hr, hd]
    · simp [run_op, start_noise_ctxfail_eq env r c a d s (by simpa using h1),
        evsum, live_counts]
  | stop =>
    simp only [run_op, stop_noise]
    cases hr : s.noiseRunning <;> cases hd : s.noiseDeviceInited <;>
      simp [liveOf, evsum, live_counts, live_delta, hr, hd]
  | monitor now =>
    by_cases hc : (s.noiseRunning = true ∧ s.hasDeadline = true ∧
        s.noiseStopAt ≤ now)
    · simp only [run_op, monitor_tick, if_pos hc]
      cases hd : s.noiseDeviceInited <;>
        simp [liveOf, evsum, live_counts, live_delta, hd]
    · simp [run_op, monitor_tick, hc, evsum, live_counts]
  | select idx =>
    simp [run_op, select_endpoint, liveOf, evsum, live_counts]

/-- Trace-level live-handle accounting. -/
lemma trace_live (ops : List Op) (s : ServerState) :
    (∀ n ∈ live_counts (liveOf s) (run_trace ops s).2, n ≤ 1) ∧
    liveOf s + evsum (run_trace ops s).2 = liveOf (run_trace ops s).1 := by
  induction ops generalizing s with
  | nil => simp [run_trace, live_counts, evsum]
  | cons op rest ih =>
    obtain ⟨hop, hfin⟩ := op_live op s
    obtain ⟨hrest, hrfin⟩ := ih (run_op op s).1
    constructor
    · intro n hn
      rw [run_trace] at hn
      simp only [live_counts_append, List.mem_append] at hn
      rcases hn with hn | hn
      · exact hop n hn
      · rw [hfin] at hn
        exact hrest n hn
    · rw [run_trace]
      simp only [evsum, List.map_append, List.sum_append]
      rw [← evsum, ← evsum, ← add_assoc, hfin, hrfin]

/-! ### C3 -/

/-- C3, counterexample: at seed 0 the sample produced by the code (low 24
bits of the updated seed, `seed' & 0x00FFFFFF`) differs from the sample
the spec describes (top 24 bits of the updated seed, `seed' >> 8`), so
the claim's "derived from the top 24 bits" is false for the code. -/
theorem sample_not_from_top24_bits :
    (frand_signed 0).2 ≠ (frand_spec_top24 0).2 := by
  norm_num [frand_signed, frand_spec_top24, lcg_next]

/-- C3 (amended): `frand_signed` updates the seed by
`seed' = seed * 1664525 + 1013904223 (mod 2^32)` and returns a sample in
`[-amplitude, amplitude)` once multiplied by a positive amplitude, the
sample magnitude being derived from the LOW 24 bits of `seed'` mapped to
`[0,1)` and rescaled to `[-1,1)`. -/
theorem frand_signed_lcg_low24_range (s : Nat) (amp : ℚ) (hamp : 0 < amp) :
    (frand_signed s).1 = (s * 1664525 + 1013904223) % 2 ^ 32 ∧
    (frand_signed s).2 = ((lcg_next s % 2 ^ 24 : Nat) : ℚ) / 2 ^ 24 * 2 - 1 ∧
    -amp ≤ (frand_signed s).2 * amp ∧ (frand_signed s).2 * amp < amp := by
  have h := scaled_range (lcg_next s % 2 ^ 24) (Nat.mod_lt _ (by norm_num)) amp hamp
  exact ⟨by simp only [frand_signed, lcg_next], by simp only [frand_signed],
    h.1, h.2⟩

/-- C3, witness: the amended theorem applied at seed 0 and amplitude 1. -/
theorem frand_signed_lcg_low24_range_witness :
    (0 : ℚ) < 1 ∧
    ((frand_signed 0).1 = (0 * 1664525 + 1013904223) % 2 ^ 32 ∧
     (frand_signed 0).2 = ((lcg_next 0 % 2 ^ 24 : Nat) : ℚ) / 2 ^ 24 * 2 - 1 ∧
     -(1 : ℚ) ≤ (frand_signed 0).2 * 1 ∧ (frand_signed 0).2 * 1 < 1) :=
  ⟨by norm_num, frand_signed_lcg_low24_range 0 1 (by norm_num)⟩

/-! ### C2 -/

/-- C2: whenever `start_noise` fails because the underlying subsystem
cannot create (`ma_device_init`) or start (`ma_device_start`) the device,
it returns a failure result, the session is Idle (`g_noiseRunning`
false), and no device handle is retained (`g_noiseDeviceInited` false,
no endpoint binding). -/
theorem failed_start_leaves_idle (env : StartEnv) (r c : Nat) (a : ℚ)
    (d : Nat) (s : ServerState) (hctx : (s.ctxInited || env.ctxOk) = true)
    (hfail : env.initOk = false ∨ env.devStartOk = false) :
    (start_noise env r c a d s).2.1 = false ∧
    (start_noise env r c a d s).1.noiseRunning = false ∧
    (start_noise env r c a d s).1.noiseDeviceInited = false ∧
    (start_noise env r c a d s).1.boundEndpoint = none := by
  by_cases h2 : env.initOk = true
  · have h3 : env.devStartOk = false := by
      rcases hfail with h | h
      · rw [h2] at h; exact absurd h (by simp)
      · exact h
    rw [start_noise_startfail_eq env r c a d s hctx h2 h3]
    simp
  · rw [start_noise_initfail_eq env r c a d s hctx (by simpa using h2)]
    simp

/-- C2, witness: a failed start from the initial state. -/
theorem failed_start_leaves_idle_witness :
    ((initialState.ctxInited || initFailEnv.ctxOk) = true ∧
      (initFailEnv.initOk = false ∨ initFailEnv.devStartOk = false)) ∧
    ((start_noise initFailEnv 48000 2 0 3000 initialState).2.1 = false ∧
     (start_noise initFailEnv 48000 2 0 3000 initialState).1.noiseRunning = false ∧
     (start_noise initFailEnv 48000 2 0 3000 initialState).1.noiseDeviceInited = false ∧
     (start_noise initFailEnv 48000 2 0 3000 initialState).1.boundEndpoint = none) :=
  ⟨⟨by decide, Or.inl (by decide)⟩,
   failed_start_leaves_idle initFailEnv 48000 2 0 3000 initialState (by decide)
     (Or.inl (by decide))⟩

/-! ### Reachability invariant -/

/-- In every reachable rest state, the session is running iff the device
handle is initialized, and a running session implies an initialized audio
context. -/
lemma reachable_running_inited (s : ServerState) (h : Reachable s) :
    s.noiseRunning = s.noiseDeviceInited ∧
    (s.noiseRunning = true → s.ctxInited = true) := by
  induction h with
  | init => simp [initialState]
  | step op s' hs ih =>
    cases op with
    | start env r c a d =>
      by_cases h1 : (s'.ctxInited || env.ctxOk) = true
      · by_cases h2 : env.initOk = true
        · by_cases h3 : env.devStartOk = true
          · simp [run_op, start_noise_success_eq env r c a d s' h1 h2 h3]
          · simp [run_op,
              start_noise_startfail_eq env r c a d s' h1 h2 (by simpa using h3)]
        · simp [run_op,
            start_noise_initfail_eq env r c a d s' h1 (by simpa using h2)]
      · simpa [run_op,
          start_noise_ctxfail_eq env r c a d s' (by simpa using h1)] using ih
    | stop => simp [run_op, stop_noise]
    | monitor now =>
      by_cases hc : (s'.noiseRunning = true ∧ s'.hasDeadline = true ∧
          s'.noiseStopAt ≤ now)
      · simp [run_op, monitor_tick, hc]
      · simpa [run_op, monitor_tick, hc] using ih
    | select idx => simpa [run_op, select_endpoint] using ih

/-! ### C10 -/

/-- C10: a `start_noise` call on a reachable Active session that fails at
device creation or device start has already stopped and released the old
device (the first two events are `devStop`, `devUninit`) before the
failure is reported, returns false, and leaves the process Idle with no
device handle — the old session is neither left playing nor restored. -/
theorem failed_reconfigure_ends_idle (s : ServerState) (hreach : Reachable s)
    (hrun : s.noiseRunning = true) (env : StartEnv) (r c : Nat) (a : ℚ)
    (d : Nat) (hfail : env.initOk = false ∨ env.devStartOk = false) :
    (start_noise env r c a d s).2.1 = false ∧
    (start_noise env r c a d s).1.noiseRunning = false ∧
    (start_noise env r c a d s).1.noiseDeviceInited = false ∧
    (start_noise env r c a d s).2.2.take 2 =
      [DevEvent.devStop, DevEvent.devUninit] := by
  obtain ⟨heq, hctximp⟩ := reachable_running_inited s hreach
  have hini : s.noiseDeviceInited = true := heq ▸ hrun
  have hctx : (s.ctxInited || env.ctxOk) = true := by
    simp [hctximp hrun]
  by_cases h2 : env.initOk = true
  · have h3 : env.devStartOk = false := by
      rcases hfail with h | h
      · rw [h2] at h; exact absurd h (by simp)
      · exact h
    rw [start_noise_startfail_eq env r c a d s hctx h2 h3]
    simp [hrun, hini]
  · rw [start_noise_initfail_eq env r c a d s hctx (by simpa using h2)]
    simp [hrun, hini]

lemma runningState_reachable : Reachable runningState :=
  Reachable.step (Op.start goodEnv 48000 2 0 500) initialState Reachable.init

/-- C10, witness: a failed reconfigure of a live session. -/
theorem failed_reconfigure_ends_idle_witness :
    (runningState.noiseRunning = true ∧
      (initFailEnv.initOk = false ∨ initFailEnv.devStartOk = false)) ∧
    ((start_noise initFailEnv 48000 2 0 500 runningState).2.1 = false ∧
     (start_noise initFailEnv 48000 2 0 500 runningState).1.noiseRunning = false ∧
     (start_noise initFailEnv 48000 2 0 500 runningState).1.noiseDeviceInited = false ∧
     (start_noise initFailEnv 48000 2 0 500 runningState).2.2.take 2 =
       [DevEvent.devStop, DevEvent.devUninit]) :=
  ⟨⟨by decide, Or.inl (by decide)⟩,
   failed_reconfigure_ends_idle runningState runningState_reachable (by decide)
     initFailEnv 48000 2 0 500 (Or.inl (by decide))⟩

/-! ### C1 -/

/-- C1: a `start_noise` call on a reachable Active session first stops
and releases the existing device (its first two device events are
`devStop`, `devUninit`, before any `devInit`); and along every serialized
interleaving of start / stop / monitor / select operations from process
start, the running count of live device handles never exceeds 1. -/
theorem noise_device_handles_at_most_one :
    (∀ (s : ServerState), Reachable s → s.noiseRunning = true →
      ∀ (env : StartEnv) (r c : Nat) (a : ℚ) (d : Nat),
        (start_noise env r c a d s).2.2.take 2 =
          [DevEvent.devStop, DevEvent.devUninit]) ∧
    (∀ ops : List Op, ∀ n ∈ live_counts 0 (run_trace ops initialState).2,
      n ≤ 1) := by
  constructor
  · intro s hreach hrun env r c a d
    obtain ⟨heq, hctximp⟩ := reachable_running_inited s hreach
    have hini : s.noiseDeviceInited = true := heq ▸ hrun
    have hctx : (s.ctxInited || env.ctxOk) = true := by
      simp [hctximp hrun]
    by_cases h2 : env.initOk = true
    · by_cases h3 : env.devStartOk = true
      · rw [start_noise_success_eq env r c a d s hctx h2 h3]
        simp [hrun, hini]
      · rw [start_noise_startfail_eq env r c a d s hctx h2 (by simpa using h3)]
        simp [hrun, hini]
    · rw [start_noise_initfail_eq env r c a d s hctx (by simpa using h2)]
      simp [hrun, hini]
  · intro ops n hn
    have h := (trace_live ops initialState).1
    apply h
    simpa [liveOf, initialState] using hn

/-- C1, witness: the tear-down ordering applied to a live session, and a
live count that the bound is checked against on a concrete trace. -/
theorem noise_device_handles_at_most_one_witness :
    (Reachable runningState ∧ runningState.noiseRunning = true) ∧
    (start_noise goodEnv 44100 1 0 250 runningState).2.2.take 2 =
      [DevEvent.devStop, DevEvent.devUninit] ∧
    (1 : Int) ∈ live_counts 0
      (run_trace [Op.start goodEnv 48000 2 0 500] initialState).2 ∧
    (1 : Int) ≤ 1 :=
  ⟨⟨runningState_reachable, by decide⟩,
   noise_device_handles_at_most_one.1 runningState runningState_reachable
     (by decide) goodEnv 44100 1 0 250,
   by decide,
   noise_device_handles_at_most_one.2 [Op.start goodEnv 48000 2 0 500] 1
     (by decide)⟩

/-! ### C5 -/

/-- C5, counterexample: after a successful timed start followed by a
start whose `ma_device_init` fails — a reachable, lock-free point — the
session is Idle with no device, yet the deadline flag is still armed:
`start_noise`'s failure paths never clear `g_hasDeadline`.  This refutes
"the deadline is set iff durationMs > 0 and status == Active" and "after
any failed start no deadline remains armed". -/
theorem stale_deadline_after_failed_start :
    staleDeadlineState.noiseRunning = false ∧
    staleDeadlineState.noiseDeviceInited = false ∧
    staleDeadlineState.hasDeadline = true := by
  decide

/-- C5 (amended): every `stop_noise` clears the deadline; a monitor tick
either leaves the state unchanged or stops the session with the deadline
cleared; after a successful `start_noise` the deadline is armed iff
`duration_ms > 0`; but a failed `start_noise` leaves the deadline flag
exactly as it was, so a stale deadline can survive a failed start (it is
harmless: the monitor also requires the session to be Active). -/
theorem deadline_flag_discipline :
    (∀ s : ServerState, (stop_noise s).1.hasDeadline = false) ∧
    (∀ (now : Nat) (s : ServerState),
        (monitor_tick now s).1 = s ∨
        ((monitor_tick now s).1.hasDeadline = false ∧
         (monitor_tick now s).1.noiseRunning = false)) ∧
    (∀ (env : StartEnv) (r c : Nat) (a : ℚ) (d : Nat) (s : ServerState),
        (start_noise env r c a d s).2.1 = true →
        ((start_noise env r c a d s).1.hasDeadline = true ↔ 0 < d)) ∧
    (∀ (env : StartEnv) (r c : Nat) (a : ℚ) (d : Nat) (s : ServerState),
        (start_noise env r c a d s).2.1 = false →
        (start_noise env r c a d s).1.hasDeadline = s.hasDeadline) := by
  refine ⟨fun s => by simp [stop_noise], fun now s => ?_, ?_, ?_⟩
  · by_cases hc : (s.noiseRunning = true ∧ s.hasDeadline = true ∧
        s.noiseStopAt ≤ now)
    · right
      simp [monitor_tick, hc]
    · left
      simp [monitor_tick, hc]
  · intro env r c a d s hsucc
    obtain ⟨h1, h2, h3⟩ := (start_noise_success_iff env r c a d s).mp hsucc
    rw [start_noise_success_eq env r c a d s h1 h2 h3]
    simp
  · intro env r c a d s hfail
    by_cases h1 : (s.ctxInited || env.ctxOk) = true
    · by_cases h2 : env.initOk = true
      · by_cases h3 : env.devStartOk = true
        · rw [start_noise_success_eq env r c a d s h1 h2 h3] at hfail
          simp at hfail
        · rw [start_noise_startfail_eq env r c a d s h1 h2 (by simpa using h3)]
      · rw [start_noise_initfail_eq env r c a d s h1 (by simpa using h2)]
    · rw [start_noise_ctxfail_eq env r c a d s (by simpa using h1)]

/-- C5, witness: the amended discipline applied at concrete states. -/
theorem deadline_flag_discipline_witness :
    (stop_noise runningState).1.hasDeadline = false ∧
    ((monitor_tick 1000 runningState).1 = runningState ∨
      ((monitor_tick 1000 runningState).1.hasDeadline = false ∧
       (monitor_tick 1000 runningState).1.noiseRunning = false)) ∧
    ((start_noise goodEnv 48000 2 0 500 initialState).2.1 = true ∧
      ((start_noise goodEnv 48000 2 0 500 initialState).1.hasDeadline = true ↔
        0 < 500)) ∧
    ((start_noise initFailEnv 48000 2 0 500 runningState).2.1 = false ∧
      (start_noise initFailEnv 48000 2 0 500 runningState).1.hasDeadline =
        runningState.hasDeadline) :=
  ⟨deadline_flag_discipline.1 runningState,
   deadline_flag_discipline.2.1 1000 runningState,
   ⟨by decide,
    deadline_flag_discipline.2.2.1 goodEnv 48000 2 0 500 initialState (by decide)⟩,
   ⟨by decide,
    deadline_flag_discipline.2.2.2 initFailEnv 48000 2 0 500 runningState
      (by decide)⟩⟩

/-! ### C7 -/

/-- C7, counterexample: at the reachable Idle state carrying a stale
deadline flag (left by a failed start), `stop_noise` does change the
session state — it clears the deadline flag — so "calling stop when the
session is already Idle causes no state change" is false as stated. -/
theorem stop_on_stale_idle_changes_state :
    staleDeadlineState.noiseRunning = false ∧
    (stop_noise staleDeadlineState).1.hasDeadline ≠
      staleDeadlineState.hasDeadline := by
  decide

/-- C7 (amended): `stop_noise` is idempotent — a second consecutive stop
changes nothing and performs no device operation; any stop leaves the
session Idle with the device released and the deadline cleared; and a
stop from an Idle state is a complete no-op provided no stale deadline
flag is armed (a failed start can leave one, and stop clears it). -/
theorem stop_idempotent (s : ServerState) :
    (stop_noise (stop_noise s).1).1 = (stop_noise s).1 ∧
    (stop_noise (stop_noise s).1).2 = [] ∧
    (stop_noise s).1.noiseRunning = false ∧
    (stop_noise s).1.noiseDeviceInited = false ∧
    (stop_noise s).1.hasDeadline = false ∧
    (s.noiseRunning = false → s.noiseDeviceInited = false →
      s.hasDeadline = false → s.boundEndpoint = none →
      stop_noise s = (s, [])) := by
  cases s with
  | mk ctx sel run ini hd stopAt ns be =>
    refine ⟨by simp [stop_noise], by simp [stop_noise], by simp [stop_noise],
      by simp [stop_noise], by simp [stop_noise], ?_⟩
    rintro rfl rfl rfl rfl
    simp [stop_noise]

/-- C7, witness: the amended idempotence applied at the initial state,
where the Idle no-op hypotheses hold. -/
theorem stop_idempotent_witness :
    (initialState.noiseRunning = false ∧ initialState.noiseDeviceInited = false ∧
      initialState.hasDeadline = false ∧ initialState.boundEndpoint = none) ∧
    (stop_noise (stop_noise initialState).1).1 = (stop_noise initialState).1 ∧
    (stop_noise initialState).1.noiseRunning = false ∧
    stop_noise initialState = (initialState, []) :=
  ⟨⟨by decide, by decide, by decide, by decide⟩,
   (stop_idempotent initialState).1,
   (stop_idempotent initialState).2.2.1,
   (stop_idempotent initialState).2.2.2.2.2 (by decide) (by decide) (by decide)
     (by decide)⟩

/-! ### C4 -/

/-- C4, counterexample: the `POST /audio/whitenoise` handler clamps
`duration_ms < 100` up to 100, so a boundary caller who passes
`duration_ms = 0` gets a finite 100 ms deadline armed — not unbounded
playback. -/
theorem duration_zero_clamped_to_100 :
    (whitenoise_params ⟨none, none, some 0, some 0⟩).2.2.2 = 100 ∧
    (whitenoise_handler ⟨none, none, some 0, some 0⟩ goodEnv
        initialState).2.1 = true ∧
    (whitenoise_handler ⟨none, none, some 0, some 0⟩ goodEnv
        initialState).1.hasDeadline = true := by
  decide

/-- C4 (amended): `start_noise` itself treats `duration_ms = 0` as
unbounded — on success no deadline is armed and the session is Active —
and a session with no armed deadline is never stopped by the monitor (it
stays Active until an explicit stop); but the HTTP start boundary clamps
`duration_ms` below 100 up to 100, so a boundary caller passing 0 gets a
100 ms deadline rather than unbounded playback. -/
theorem duration_zero_unbounded_below_boundary :
    (∀ (env : StartEnv) (r c : Nat) (a : ℚ) (s : ServerState),
        (start_noise env r c a 0 s).2.1 = true →
        (start_noise env r c a 0 s).1.hasDeadline = false ∧
        (start_noise env r c a 0 s).1.noiseRunning = true) ∧
    (∀ (now : Nat) (s : ServerState), s.hasDeadline = false →
        monitor_tick now s = (s, [])) ∧
    (∀ req : WhitenoiseReq, req.duration_ms = some 0 →
        (whitenoise_params req).2.2.2 = 100) := by
  refine ⟨?_, ?_, ?_⟩
  · intro env r c a s hsucc
    obtain ⟨h1, h2, h3⟩ := (start_noise_success_iff env r c a 0 s).mp hsucc
    rw [start_noise_success_eq env r c a 0 s h1 h2 h3]
    simp
  · intro now s h
    simp [monitor_tick, h]
  · intro req h
    simp [whitenoise_params, h]

/-- C4, witness: the amended behavior at concrete inputs. -/
theorem duration_zero_unbounded_below_boundary_witness :
    ((start_noise goodEnv 48000 2 0 0 initialState).2.1 = true ∧
      (start_noise goodEnv 48000 2 0 0 initialState).1.hasDeadline = false ∧
      (start_noise goodEnv 48000 2 0 0 initialState).1.noiseRunning = true) ∧
    ((start_noise goodEnv 48000 2 0 0 initialState).1.hasDeadline = false ∧
      monitor_tick 999999 (start_noise goodEnv 48000 2 0 0 initialState).1 =
        ((start_noise goodEnv 48000 2 0 0 initialState).1, [])) ∧
    ((⟨none, none, some 0, some 0⟩ : WhitenoiseReq).duration_ms = some 0 ∧
      (whitenoise_params ⟨none, none, some 0, some 0⟩).2.2.2 = 100) :=
  ⟨⟨by decide,
    duration_zero_unbounded_below_boundary.1 goodEnv 48000 2 0 initialState
      (by decide)⟩,
   ⟨by decide,
    duration_zero_unbounded_below_boundary.2.1 999999
      (start_noise goodEnv 48000 2 0 0 initialState).1 (by decide)⟩,
   ⟨rfl,
    duration_zero_unbounded_below_boundary.2.2 ⟨none, none, some 0, some 0⟩
      rfl⟩⟩

/-! ### C8 -/

/-- C8: endpoint selection stores the ordinal with no validation at
selection time; the ordinal is bounds-checked only at device-creation
time inside `start_noise`, and for every stored ordinal that is negative
or not below the fresh enumeration's count, a start whose device calls
succeed still succeeds and binds the device to the subsystem default
endpoint (no explicit device id). -/
theorem select_unvalidated_start_defaults :
    (∀ (idx : Int) (s : ServerState),
        (select_endpoint idx s).selectedPlaybackIndex = idx) ∧
    (∀ (s : ServerState) (env : StartEnv) (r c : Nat) (a : ℚ) (d : Nat),
        (s.ctxInited || env.ctxOk) = true → env.initOk = true →
        env.devStartOk = true →
        (s.selectedPlaybackIndex < 0 ∨
          (env.playbackCount : Int) ≤ s.selectedPlaybackIndex) →
        (start_noise env r c a d s).2.1 = true ∧
        (start_noise env r c a d s).1.boundEndpoint = none) := by
  constructor
  · intro idx s
    rfl
  · intro s env r c a d h1 h2 h3 hrange
    rw [start_noise_success_eq env r c a d s h1 h2 h3]
    refine ⟨rfl, ?_⟩
    simp only
    rw [if_neg]
    rintro ⟨-, hge, hlt⟩
    rcases hrange with h | h <;> omega

/-- C8, witness: select an out-of-range ordinal (5, with 0 endpoints
enumerated), then start successfully with a default binding. -/
theorem select_unvalidated_start_defaults_witness :
    (select_endpoint 5 initialState).selectedPlaybackIndex = 5 ∧
    (((select_endpoint 5 initialState).ctxInited || goodEnv.ctxOk) = true ∧
      goodEnv.initOk = true ∧ goodEnv.devStartOk = true ∧
      ((select_endpoint 5 initialState).selectedPlaybackIndex < 0 ∨
        (goodEnv.playbackCount : Int) ≤
          (select_endpoint 5 initialState).selectedPlaybackIndex)) ∧
    ((start_noise goodEnv 48000 2 0 3000 (select_endpoint 5 initialState)).2.1
        = true ∧
      (start_noise goodEnv 48000 2 0 3000
          (select_endpoint 5 initialState)).1.boundEndpoint = none) :=
  ⟨select_unvalidated_start_defaults.1 5 initialState,
   ⟨by decide, by decide, by decide, Or.inr (by decide)⟩,
   select_unvalidated_start_defaults.2 (select_endpoint 5 initialState) goodEnv
     48000 2 0 3000 (by decide) (by decide) (by decide) (Or.inr (by decide))⟩

/-! ### C9 -/

/-- C9, counterexample: `channels = 9` is clamped to the default 2, not
to the nearest bound of `[1,8]` (which would be 8), in both the HTTP
handler and the CLI clamping block — so "channelCount outside [1,8]
becomes the nearest bound of that range" is false. -/
theorem channels_nine_clamps_to_two :
    (whitenoise_params ⟨none, some 9, none, some 0⟩).2.1 = 2 ∧
    (whitenoise_params ⟨none, some 9, none, some 0⟩).2.1 ≠ 8 ∧
    (noise_cli_clamp 48000 9 0 5).2.1 = 2 := by
  decide

/-- C9 (amended): invalid `SessionConfig` inputs are never rejected —
the boundaries always produce in-range effective values: `sampleRate`
below 8000 becomes 8000 (and is kept when already ≥ 8000), `amplitude`
below 0 becomes 0 and above 1 becomes 1, but `channelCount` outside
`[1,8]` becomes the DEFAULT 2 (not the nearest bound).  The same clamps
apply in the `noise.c` CLI boundary. -/
theorem clamping_policy (req : WhitenoiseReq) (sr ch : Nat) (aq : ℚ)
    (ds : Int) :
    (8000 ≤ (whitenoise_params req).1 ∧
     1 ≤ (whitenoise_params req).2.1 ∧ (whitenoise_params req).2.1 ≤ 8 ∧
     0 ≤ (whitenoise_params req).2.2.1 ∧ (whitenoise_params req).2.2.1 ≤ 1 ∧
     100 ≤ (whitenoise_params req).2.2.2) ∧
    ((req.rate.getD 48000 < 8000 → (whitenoise_params req).1 = 8000) ∧
     (8000 ≤ req.rate.getD 48000 →
        (whitenoise_params req).1 = req.rate.getD 48000) ∧
     ((req.channels.getD 2 = 0 ∨ 8 < req.channels.getD 2) →
        (whitenoise_params req).2.1 = 2) ∧
     (req.amp.getD (1 / 5) < 0 → (whitenoise_params req).2.2.1 = 0) ∧
     (1 < req.amp.getD (1 / 5) → (whitenoise_params req).2.2.1 = 1)) ∧
    (8000 ≤ (noise_cli_clamp sr ch aq ds).1 ∧
     1 ≤ (noise_cli_clamp sr ch aq ds).2.1 ∧
     (noise_cli_clamp sr ch aq ds).2.1 ≤ 8 ∧
     0 ≤ (noise_cli_clamp sr ch aq ds).2.2.1 ∧
     (noise_cli_clamp sr ch aq ds).2.2.1 ≤ 1 ∧
     ((ch = 0 ∨ 8 < ch) → (noise_cli_clamp sr ch aq ds).2.1 = 2)) := by
  refine ⟨⟨?_, ?_, ?_, ?_, ?_, ?_⟩, ⟨?_, ?_, ?_, ?_, ?_⟩,
    ⟨?_, ?_, ?_, ?_, ?_, ?_⟩⟩ <;>
    simp only [whitenoise_params, noise_cli_clamp] <;>
    intros <;>
    split_ifs <;>
    first
      | rfl
      | omega
      | linarith

/-- C9, witness: the amended clamps at concrete out-of-range and
in-range inputs. -/
theorem clamping_policy_witness :
    8000 ≤ (whitenoise_params ⟨some 100, some 9, some 0, some 2⟩).1 ∧
    (whitenoise_params ⟨some 100, some 9, some 0, some 2⟩).1 = 8000 ∧
    (whitenoise_params ⟨some 100, some 9, some 0, some 2⟩).2.1 = 2 ∧
    (whitenoise_params ⟨some 100, some 9, some 0, some 2⟩).2.2.1 = 1 ∧
    (whitenoise_params ⟨none, none, none, some (-1)⟩).2.2.1 = 0 ∧
    (noise_cli_clamp 100 9 2 0).2.1 = 2 ∧
    (noise_cli_clamp 8000 1 (-1) 5).2.1 ≤ 8 := by
  obtain ⟨hA, hB, hC⟩ := clamping_policy ⟨some 100, some 9, some 0, some 2⟩
    100 9 2 0
  obtain ⟨hA2, hB2, hC2⟩ := clamping_policy ⟨none, none, none, some (-1)⟩
    8000 1 (-1) 5
  exact ⟨hA.1, hB.1 (by decide), hB.2.2.1 (Or.inr (by decide)),
    hB.2.2.2.2 (by norm_num), hB2.2.2.2.1 (by norm_num),
    hC.2.2.2.2.2 (Or.inr (by decide)), hC2.2.2.1⟩

/-! ### C6 -/

/-- C6: the sample stream is a pure deterministic function of the seed
and the amplitude: equal generator states replayed over the same
sequence of callback invocations produce bit-for-bit identical outputs;
every successful `start_noise` initializes the generator with the fixed
seed 1234567; hence any two successfully started sessions with equal
amplitude have identical sample streams. -/
theorem noise_stream_deterministic_fixed_seed :
    (∀ (st1 st2 : NoiseState) (frames : List Nat),
        st1.seed = st2.seed → st1.amplitude = st2.amplitude →
        st1.channels = st2.channels →
        run_callbacks st1 frames = run_callbacks st2 frames) ∧
    (∀ (env : StartEnv) (r c : Nat) (a : ℚ) (d : Nat) (s : ServerState),
        (start_noise env r c a d s).2.1 = true →
        (start_noise env r c a d s).1.noiseState.seed = 1234567) ∧
    (∀ (env1 env2 : StartEnv) (r1 r2 c1 c2 : Nat) (a : ℚ) (d1 d2 : Nat)
        (s1 s2 : ServerState),
        (start_noise env1 r1 c1 a d1 s1).2.1 = true →
        (start_noise env2 r2 c2 a d2 s2).2.1 = true →
        sample_stream (start_noise env1 r1 c1 a d1 s1).1.noiseState.seed
            (start_noise env1 r1 c1 a d1 s1).1.noiseState.amplitude
          = sample_stream (start_noise env2 r2 c2 a d2 s2).1.noiseState.seed
              (start_noise env2 r2 c2 a d2 s2).1.noiseState.amplitude) := by
  refine ⟨?_, ?_, ?_⟩
  · intro st1 st2 frames h1 h2 h3
    cases st1 with
    | mk a1 c1 sd1 =>
      cases st2 with
      | mk a2 c2 sd2 =>
        simp only at h1 h2 h3
        rw [h1, h2, h3]
  · intro env r c a d s hsucc
    obtain ⟨h1, h2, h3⟩ := (start_noise_success_iff env r c a d s).mp hsucc
    rw [start_noise_success_eq env r c a d s h1 h2 h3]
  · intro env1 env2 r1 r2 c1 c2 a d1 d2 s1 s2 hs1 hs2
    obtain ⟨h11, h12, h13⟩ := (start_noise_success_iff env1 r1 c1 a d1 s1).mp hs1
    obtain ⟨h21, h22, h23⟩ := (start_noise_success_iff env2 r2 c2 a d2 s2).mp hs2
    rw [start_noise_success_eq env1 r1 c1 a d1 s1 h11 h12 h13,
      start_noise_success_eq env2 r2 c2 a d2 s2 h21 h22 h23]

/-- C6, witness: two successful starts with equal amplitude from
different states and rates. -/
theorem noise_stream_deterministic_fixed_seed_witness :
    run_callbacks ⟨0, 2, 42⟩ [3, 5] = run_callbacks ⟨0, 2, 42⟩ [3, 5] ∧
    ((start_noise goodEnv 48000 2 0 3000 initialState).2.1 = true ∧
      (start_noise goodEnv 48000 2 0 3000 initialState).1.noiseState.seed
        = 1234567) ∧
    ((start_noise goodEnv 44100 1 0 0 runningState).2.1 = true ∧
      sample_stream (start_noise goodEnv 48000 2 0 3000
            initialState).1.noiseState.seed
          (start_noise goodEnv 48000 2 0 3000
            initialState).1.noiseState.amplitude
        = sample_stream (start_noise goodEnv 44100 1 0 0
              runningState).1.noiseState.seed
            (start_noise goodEnv 44100 1 0 0
              runningState).1.noiseState.amplitude) :=
  ⟨noise_stream_deterministic_fixed_seed.1 ⟨0, 2, 42⟩ ⟨0, 2, 42⟩ [3, 5]
     rfl rfl rfl,
   ⟨by decide,
    noise_stream_deterministic_fixed_seed.2.1 goodEnv 48000 2 0 3000
      initialState (by decide)⟩,
   ⟨by decide,
    noise_stream_deterministic_fixed_seed.2.2 goodEnv goodEnv 48000 44100 2 1
      0 3000 0 initialState runningState (by decide) (by decide)⟩⟩
